import Mathlib

/-!
Shallow embedding of `libcloud/loadbalancer/drivers/dimensiondata.py`
(`DimensionDataLBDriver`).

The driver builds XML payloads with `xml.etree.ElementTree` (`ET`), posts
them through a connection object and parses the responses.  The embedding
models:

* Python values that get assigned to XML element text (`PyVal`): the source
  assigns strings, `None`, and raw integers (the default connection limits),
  so the payload model keeps the assigned value unconverted.
* outgoing payload elements (`XElem`) and serialization (`tostring?`,
  which fails on non-string text exactly as `ET.tostring` raises
  `TypeError` on an `int` text);
* incoming XML elements (`XmlNode`, with string attributes and text, as
  produced by the XML parser) and the `findtext` / attribute helpers;
* the vendor "info" response list as `InfoEntry` records with `name` /
  `value` fields, matching the source's `info.name` / `info.value` reads;
* each driver operation as a function of an environment oracle
  `Env : Request → Response` standing for the HTTP connection; an
  operation returns its Python result together with the list of requests
  it issued, in order.  Request issuance is modelled at the payload level
  (the built element), before string serialization.
-/

namespace DimensionData

/-- A Python value as assigned to XML element text or returned from a
driver operation: `None`, a string, an `int`, or a `bool`. -/
inductive PyVal where
  | none
  | str (s : String)
  | int (n : Int)
  | bool (b : Bool)
deriving DecidableEq, Repr

/-- Python `==` restricted to the values above: `None` equals only `None`,
strings compare as strings, numbers and booleans compare numerically
(`True == 1`, `False == 0`). -/
def PyVal.pyEq : PyVal → PyVal → Bool
  | .none, .none => true
  | .str a, .str b => a == b
  | .int a, .int b => a == b
  | .bool a, .bool b => a == b
  | .int a, .bool b => a == (if b then 1 else 0)
  | .bool a, .int b => (if a then 1 else 0) == b
  | _, _ => false

/-- Python truthiness of the modelled values: `None`, `False`, `0` and the
empty string are falsy. -/
def PyVal.falsy : PyVal → Bool
  | .none => true
  | .bool b => !b
  | .int n => n == 0
  | .str s => s.isEmpty

/-- Lift an optional string (e.g. a `findtext` / attribute-lookup result)
to the Python value it denotes: `None` or the string. -/
def pyOfOpt : Option String → PyVal
  | Option.none => .none
  | Option.some s => .str s

/-- Modelled from the spec: the fixed vendor namespace (`SERVER_NS` from
`libcloud.common.dimensiondata`, not part of the sources under review).
Only its identity matters to the claims, never its contents. -/
def SERVER_NS : String := "urn:didata.com:api:cloud:types"

/-- An outgoing payload element built with `ET.Element` / `ET.SubElement`:
a tag, the attribute dict of the root element, and the list of subelements
as `(tag, text)` pairs in creation order.  Text keeps the Python value the
source assigned, unconverted. -/
structure XElem where
  tag : String
  attrs : List (String × PyVal)
  children : List (String × PyVal)
deriving DecidableEq, Repr

/-- Text of the first subelement with the given tag, if any. -/
def XElem.childText (e : XElem) (tag : String) : Option PyVal :=
  (e.children.find? (fun c => c.1 == tag)).map (·.2)

/-- Attribute value of the root element, if present. -/
def XElem.attr (e : XElem) (k : String) : Option PyVal :=
  (e.attrs.find? (fun a => a.1 == k)).map (·.2)

/-- `ET.tostring` accepts `str` text (rendered) and `None` text (element
left empty) but raises `TypeError` on any other text type, `int` and
`bool` included. -/
def serializableText : PyVal → Bool
  | .str _ => true
  | .none => true
  | _ => false

/-- Render one `(tag, text)` subelement, assuming serializable text. -/
def renderChild : String × PyVal → String
  | (t, .str s) => "<" ++ t ++ ">" ++ s ++ "</" ++ t ++ ">"
  | (t, _) => "<" ++ t ++ "/>"

/-- `ET.tostring` on a payload element: `some` rendered document when every
attribute and text is serializable, `none` for the `TypeError` raised on a
non-string text such as the integer connection limits. -/
def tostring? (e : XElem) : Option String :=
  if e.attrs.all (fun a => serializableText a.2)
      && e.children.all (fun c => serializableText c.2) then
    Option.some ("<" ++ e.tag ++ ">"
      ++ String.join (e.children.map renderChild) ++ "</" ++ e.tag ++ ">")
  else
    Option.none

/-- A request issued through the connection: the org-scoped API path, the
HTTP method and the payload element (for POSTs). -/
structure Request where
  path : String
  method : String
  body : XElem
deriving DecidableEq, Repr

/-- One entry of the vendor "info" response list, read by the source as
`info.name` / `info.value`. -/
structure InfoEntry where
  name : String
  value : String
deriving DecidableEq, Repr

/-- A parsed response, reduced to the parts the create-operations read:
the "info" list returned by `findall(response, 'info', TYPES_URN)`. -/
structure Response where
  info : List InfoEntry
deriving Repr

/-- The connection environment: what the vendor answers to each request. -/
def Env : Type := Request → Response

/-- The `for info in findall(...): if info.name == key: return info.value`
loop shared by all create-operations: the value of the first entry whose
name equals the key, else nothing. -/
def extractId (infos : List InfoEntry) (key : String) : Option String :=
  match infos with
  | [] => Option.none
  | i :: rest => if i.name == key then Option.some i.value else extractId rest key

/-- Python `dict.get(k)` on an association list with distinct keys (the
literal dicts of the source): the value at the first matching key. -/
def dGet {α β : Type} [BEq α] (d : List (α × β)) (k : α) : Option β :=
  (d.find? (fun p => p.1 == k)).map (·.2)

/-- Modelled from the spec: the neutral `Algorithm` enumeration from
`libcloud.loadbalancer.base` (an external collaborator, not in the sources
under review). -/
inductive Algorithm where
  | RANDOM
  | ROUND_ROBIN
  | LEAST_CONNECTIONS
  | WEIGHTED_ROUND_ROBIN
  | WEIGHTED_LEAST_CONNECTIONS
  | SHORTEST_RESPONSE
  | PERSISTENT_IP
deriving DecidableEq, Repr, Fintype

/-- Modelled from the spec: the neutral `State` enumeration from
`libcloud.loadbalancer.types` (an external collaborator, not in the
sources under review). -/
inductive State where
  | RUNNING
  | PENDING
  | UNKNOWN
  | ERROR
  | DELETED
deriving DecidableEq, Repr

/-- `_VALUE_TO_ALGORITHM_MAP`: vendor algorithm code to neutral
`Algorithm`. -/
def VALUE_TO_ALGORITHM_MAP : List (String × Algorithm) :=
  [("ROUND_ROBIN", .ROUND_ROBIN),
   ("LEAST_CONNECTIONS", .LEAST_CONNECTIONS),
   ("SHORTEST_RESPONSE", .SHORTEST_RESPONSE),
   ("PERSISTENT_IP", .PERSISTENT_IP)]

/-- Modelled from the spec: `reverse_dict` from `libcloud.utils.misc` (an
external collaborator, not in the sources under review) swaps the keys
and values of a dict. -/
def reverse_dict {α β : Type} (d : List (α × β)) : List (β × α) :=
  d.map (fun p => (p.2, p.1))

/-- `_ALGORITHM_TO_VALUE_MAP = reverse_dict(_VALUE_TO_ALGORITHM_MAP)`. -/
def ALGORITHM_TO_VALUE_MAP : List (Algorithm × String) :=
  reverse_dict VALUE_TO_ALGORITHM_MAP

/-- `_VALUE_TO_STATE_MAP`: vendor state code to neutral `State`. -/
def VALUE_TO_STATE_MAP : List (String × State) :=
  [("NORMAL", .RUNNING),
   ("PENDING_ADD", .PENDING),
   ("PENDING_CHANGE", .PENDING),
   ("PENDING_DELETE", .PENDING),
   ("FAILED_ADD", .ERROR),
   ("FAILED_CHANGE", .ERROR),
   ("FAILED_DELETE", .ERROR),
   ("REQUIRES_SUPPORT", .ERROR)]

/-- `self._VALUE_TO_STATE_MAP.get(code, State.UNKNOWN)` for a string
code. -/
def stateLookup (code : String) : State :=
  (dGet VALUE_TO_STATE_MAP code).getD State.UNKNOWN

/-- The same `dict.get` applied to a `findtext` result, which may be
`None` (never a key of the map, so the `State.UNKNOWN` default fires). -/
def stateOfCode : Option String → State
  | Option.none => State.UNKNOWN
  | Option.some c => stateLookup c

/-- An incoming XML element as produced by the response parser: tag,
string attributes, optional text, subelements in document order. -/
inductive XmlNode where
  | mk (tag : String) (attrs : List (String × String))
       (text : Option String) (children : List XmlNode)

def XmlNode.tag : XmlNode → String
  | .mk t _ _ _ => t

def XmlNode.attrs : XmlNode → List (String × String)
  | .mk _ a _ _ => a

def XmlNode.text : XmlNode → Option String
  | .mk _ _ t _ => t

def XmlNode.children : XmlNode → List XmlNode
  | .mk _ _ _ c => c

/-- `element.get(key)`: attribute lookup, `None` when absent. -/
def XmlNode.get (e : XmlNode) (k : String) : Option String :=
  (e.attrs.find? (fun a => a.1 == k)).map (·.2)

/-- `element.find(fixxpath(tag, TYPES_URN))`: the first subelement with
the given tag, `None` when absent. -/
def XmlNode.findChild (e : XmlNode) (t : String) : Option XmlNode :=
  e.children.find? (fun c => c.tag == t)

/-- `libcloud.utils.xml.findtext(element, tag, TYPES_URN)`: `None` when no
such subelement exists, else its text (the empty string for an element
with no text). -/
def findtext (e : XmlNode) (t : String) : Option String :=
  (e.findChild t).map (fun c => c.text.getD "")

/-- `object.findall(fixxpath(tag, TYPES_URN))`: all subelements with the
given tag, in document order. -/
def findallChildren (e : XmlNode) (t : String) : List XmlNode :=
  e.children.filter (fun c => c.tag == t)

/-- Value of a nonempty all-digit character run, accumulator style. -/
def digitsVal : List Char → Nat → Option Nat
  | [], acc => Option.some acc
  | c :: rest, acc =>
      if c.isDigit then digitsVal rest (acc * 10 + (c.toNat - 48))
      else Option.none

/-- A decimal numeral: at least one character, all digits. -/
def parseDigits : List Char → Option Nat
  | [] => Option.none
  | c :: rest => digitsVal (c :: rest) 0

/-- Python `int()` applied to a `findtext` result: raises `TypeError` on
`None` and `ValueError` on text that is not an optionally-signed decimal
numeral surrounded by optional whitespace (digit-group underscores are
not modelled).  Failure is `none`. -/
def pyInt : Option String → Option Int
  | Option.none => Option.none
  | Option.some s =>
      let cs := ((s.data.dropWhile Char.isWhitespace).reverse.dropWhile
        Char.isWhitespace).reverse
      match cs with
      | '-' :: rest => (parseDigits rest).map (fun n => -(n : Int))
      | '+' :: rest => (parseDigits rest).map (fun n => (n : Int))
      | _ => (parseDigits cs).map (fun n => (n : Int))

/-- A neutral `Member` as this driver reads it: the driver accesses
`member.name`, `member.ip`, `member.port` and `member.description`. -/
structure Member where
  id : PyVal
  name : PyVal
  ip : PyVal
  port : PyVal
  description : PyVal
deriving DecidableEq, Repr

/-- A neutral `LoadBalancer` as this driver builds and reads it; the
`extra` dict is flattened to its two keys `pool_id` and
`network_domain_id`. -/
structure LoadBalancer where
  id : PyVal
  name : PyVal
  state : State
  ip : PyVal
  port : PyVal
  pool_id : PyVal
  network_domain_id : PyVal
deriving DecidableEq, Repr

/-- `DimensionDataPoolMember` from `libcloud.common.dimensiondata`, with
the fields `_to_member` fills. -/
structure DimensionDataPoolMember where
  id : Option String
  name : Option String
  status : Option String
  ip_address : Option String
  port : Int
deriving DecidableEq, Repr

/-- `DimensionDataPool` from `libcloud.common.dimensiondata`, with the
fields `_to_pool` fills. -/
structure DimensionDataPool where
  id : Option String
  name : Option String
  status : Option String
  description : Option String
deriving DecidableEq, Repr

namespace DimensionDataLBDriver

/-- The `createNode` payload built by `ex_create_node`: subelements in
source order, each text the Python value assigned to it. -/
def createNodeElm (network_domain_id name ip ex_description
    connection_limit connection_rate_limit : PyVal) : XElem :=
  { tag := "createNode",
    attrs := [("xmlns", .str SERVER_NS)],
    children := [("networkDomainId", network_domain_id),
                 ("description", ex_description),
                 ("name", name),
                 ("ipv4Address", ip),
                 ("connectionLimit", connection_limit),
                 ("connectionRateLimit", connection_rate_limit)] }

/-- The request `ex_create_node` posts. -/
def createNodeRequest (network_domain_id name ip ex_description
    connection_limit connection_rate_limit : PyVal) : Request :=
  { path := "networkDomainVip/createNode", method := "POST",
    body := createNodeElm network_domain_id name ip ex_description
      connection_limit connection_rate_limit }

/-- `ex_create_node`: post `createNode`, scan the response info list for
`nodeId`; on a hit return the id string, otherwise return `None`. -/
def ex_create_node (env : Env) (network_domain_id name ip ex_description : PyVal)
    (connection_limit : PyVal := .int 25000)
    (connection_rate_limit : PyVal := .int 2000) : PyVal × List Request :=
  let req := createNodeRequest network_domain_id name ip ex_description
    connection_limit connection_rate_limit
  let response := env req
  (match extractId response.info "nodeId" with
   | Option.some v => PyVal.str v
   | Option.none => PyVal.none,
   [req])

/-- The `createPool` payload built by `ex_create_pool`. -/
def createPoolElm (network_domain_id name balancer_method ex_description
    service_down_action slow_ramp_time : PyVal) : XElem :=
  { tag := "createPool",
    attrs := [("xmlns", .str SERVER_NS)],
    children := [("networkDomainId", network_domain_id),
                 ("description", ex_description),
                 ("name", name),
                 ("loadBalancerMethod", balancer_method),
                 ("serviceDownAction", service_down_action),
                 ("slowRampTime", slow_ramp_time)] }

/-- The request `ex_create_pool` posts. -/
def createPoolRequest (network_domain_id name balancer_method ex_description
    service_down_action slow_ramp_time : PyVal) : Request :=
  { path := "networkDomainVip/createPool", method := "POST",
    body := createPoolElm network_domain_id name balancer_method
      ex_description service_down_action slow_ramp_time }

/-- `ex_create_pool`: post `createPool`, scan the response info list for
`poolId`; on a hit return the id string, otherwise return `False`. -/
def ex_create_pool (env : Env) (network_domain_id name balancer_method
    ex_description : PyVal)
    (service_down_action : PyVal := .str "NONE")
    (slow_ramp_time : PyVal := .int 30) : PyVal × List Request :=
  let req := createPoolRequest network_domain_id name balancer_method
    ex_description service_down_action slow_ramp_time
  let response := env req
  (match extractId response.info "poolId" with
   | Option.some v => PyVal.str v
   | Option.none => PyVal.bool false,
   [req])

/-- The `addPoolMember` payload built by `ex_create_pool_member`. -/
def addPoolMemberElm (pool_id node_id port : PyVal) : XElem :=
  { tag := "addPoolMember",
    attrs := [("xmlns", .str SERVER_NS)],
    children := [("poolId", pool_id),
                 ("nodeId", node_id),
                 ("port", port)] }

/-- The request `ex_create_pool_member` posts. -/
def addPoolMemberRequest (pool_id node_id port : PyVal) : Request :=
  { path := "networkDomainVip/addPoolMember", method := "POST",
    body := addPoolMemberElm pool_id node_id port }

/-- `ex_create_pool_member`: post `addPoolMember`, scan the response info
list for `poolMemberId`; on a hit return the id string, otherwise return
`False`. -/
def ex_create_pool_member (env : Env) (pool_id node_id port : PyVal) :
    PyVal × List Request :=
  let req := addPoolMemberRequest pool_id node_id port
  let response := env req
  (match extractId response.info "poolMemberId" with
   | Option.some v => PyVal.str v
   | Option.none => PyVal.bool false,
   [req])

/-- The `createVirtualListener` payload built by
`ex_create_virtual_listener` (the `protocol` parameter is accepted but
never written to the payload). -/
def createVirtualListenerElm (network_domain_id name ex_description port
    listener_type connection_limit connection_rate_limit
    source_port_preservation : PyVal) : XElem :=
  { tag := "createVirtualListener",
    attrs := [("xmlns", .str SERVER_NS)],
    children := [("networkDomainId", network_domain_id),
                 ("description", ex_description),
                 ("name", name),
                 ("port", port),
                 ("type", listener_type),
                 ("connectionLimit", connection_limit),
                 ("connectionRateLimit", connection_rate_limit),
                 ("sourcePortPreservation", source_port_preservation)] }

/-- The request `ex_create_virtual_listener` posts. -/
def createVirtualListenerRequest (network_domain_id name ex_description port
    listener_type connection_limit connection_rate_limit
    source_port_preservation : PyVal) : Request :=
  { path := "networkDomainVip/createVirtualListener", method := "POST",
    body := createVirtualListenerElm network_domain_id name ex_description
      port listener_type connection_limit connection_rate_limit
      source_port_preservation }

/-- `ex_create_virtual_listener`: post `createVirtualListener`, then scan
the response info list for the key `poolId` (as written in the source);
on a hit return that value, otherwise return `False`. -/
def ex_create_virtual_listener (env : Env)
    (network_domain_id name ex_description port : PyVal)
    (listener_type : PyVal := .str "STANDARD")
    (protocol : PyVal := .str "ANY")
    (connection_limit : PyVal := .int 25000)
    (connection_rate_limit : PyVal := .int 2000)
    (source_port_preservation : PyVal := .str "PRESERVE") :
    PyVal × List Request :=
  let _ := protocol
  let req := createVirtualListenerRequest network_domain_id name
    ex_description port listener_type connection_limit
    connection_rate_limit source_port_preservation
  let response := env req
  (match extractId response.info "poolId" with
   | Option.some v => PyVal.str v
   | Option.none => PyVal.bool false,
   [req])

/-- The member loop of `create_balancer`: for each member in list order,
`ex_create_node` (with the loop's `network_domain_id` and the member's
name and ip, description `None`) followed by `ex_create_pool_member`
(with the pool id from step one, the fresh node id and `port`). -/
def create_balancer_loop (env : Env) (network_domain_id pool_id port : PyVal) :
    List Member → List Request
  | [] => []
  | member :: rest =>
      let (node_id, t1) := ex_create_node env network_domain_id member.name
        member.ip PyVal.none
      let (_, t2) := ex_create_pool_member env pool_id node_id port
      t1 ++ t2 ++ create_balancer_loop env network_domain_id pool_id port rest

/-- `create_balancer(name, port, protocol, algorithm, members)`:
`network_domain_id` is the hardcoded `None`; create a pool with
`_ALGORITHM_TO_VALUE_MAP.get(algorithm)` as the balancer method; for each
member create a node then attach it as a pool member at `port`; create
the virtual listener; return `True`.  `protocol` is never used. -/
def create_balancer (env : Env) (name port protocol : PyVal)
    (algorithm : Algorithm) (members : List Member) : PyVal × List Request :=
  let _ := protocol
  let network_domain_id : PyVal := PyVal.none
  let (pool_id, t0) := ex_create_pool env network_domain_id name
    (pyOfOpt (dGet ALGORITHM_TO_VALUE_MAP algorithm)) PyVal.none
  let tm := create_balancer_loop env network_domain_id pool_id port members
  let (_, t3) := ex_create_virtual_listener env network_domain_id name
    PyVal.none port
  (PyVal.bool true, t0 ++ tm ++ t3)

/-- `balancer_attach_member(balancer, member)`: create a node under the
balancer's network domain; compare the returned id against `false`
(Python `False`; `ex_create_node`'s failure sentinel is `None`, which is
not `== False`); unless that comparison hits, attach the node as a pool
member and return `True`. -/
def balancer_attach_member (env : Env) (balancer : LoadBalancer)
    (member : Member) : PyVal × List Request :=
  let (nodeId, t1) := ex_create_node env balancer.network_domain_id
    member.name member.ip member.description
  if nodeId.pyEq (PyVal.bool false) then
    (PyVal.bool false, t1)
  else
    let (_, t2) := ex_create_pool_member env balancer.pool_id nodeId
      member.port
    (PyVal.bool true, t1 ++ t2)

/-- The `deleteVirtualListener` payload built by `destroy_balancer`: a
single element whose attributes are the namespace and the balancer id. -/
def deleteVirtualListenerElm (id : PyVal) : XElem :=
  { tag := "deleteVirtualListener",
    attrs := [("xmlns", .str SERVER_NS), ("id", id)],
    children := [] }

/-- The request `destroy_balancer` posts. -/
def deleteVirtualListenerRequest (id : PyVal) : Request :=
  { path := "networkDomainVip/deleteVirtualListener", method := "POST",
    body := deleteVirtualListenerElm id }

/-- `destroy_balancer(balancer)`: post one `deleteVirtualListener`
request carrying `balancer.id` and return `True`. -/
def destroy_balancer (env : Env) (balancer : LoadBalancer) :
    PyVal × List Request :=
  let req := deleteVirtualListenerRequest balancer.id
  let _ := env req
  (PyVal.bool true, [req])

/-- `_to_balancer(element)`: decode one `virtualListener` element.
`element.find('pool').get('id')` raises `AttributeError` when the `pool`
subelement is absent, hence the `Option`. -/
def _to_balancer (element : XmlNode) : Option LoadBalancer := do
  let ipaddress := findtext element "listenerIpAddress"
  let name := findtext element "name"
  let port := findtext element "port"
  let poolElem ← element.findChild "pool"
  let pool_id := poolElem.get "id"
  let network_domain_id := findtext element "networkDomainId"
  pure { id := pyOfOpt (element.get "id"),
         name := pyOfOpt name,
         state := stateOfCode (findtext element "state"),
         ip := pyOfOpt ipaddress,
         port := pyOfOpt port,
         pool_id := pyOfOpt pool_id,
         network_domain_id := pyOfOpt network_domain_id }

/-- `_to_balancers(object)`: decode every `virtualListener` subelement in
document order. -/
def _to_balancers (object : XmlNode) : Option (List LoadBalancer) :=
  (findallChildren object "virtualListener").mapM _to_balancer

/-- `_to_member(element)`: decode one `poolMember` element.
`element.find('node')` raises `AttributeError` when the `node`
subelement is absent, and `int(findtext(element, 'port', TYPES_URN))`
raises when the port text is missing or not numeric, hence the
`Option`. -/
def _to_member (element : XmlNode) : Option DimensionDataPoolMember := do
  let nodeForName ← element.findChild "node"
  let status := findtext element "state"
  let nodeForIp ← element.findChild "node"
  let port ← pyInt (findtext element "port")
  pure { id := element.get "id",
         name := nodeForName.get "name",
         status := status,
         ip_address := nodeForIp.get "ipAddress",
         port := port }

/-- `_to_members(object)`: decode every `poolMember` subelement in
document order. -/
def _to_members (object : XmlNode) : Option (List DimensionDataPoolMember) :=
  (findallChildren object "poolMember").mapM _to_member

/-- `_to_pool(element)`: decode one `pool` element. -/
def _to_pool (element : XmlNode) : DimensionDataPool :=
  { id := element.get "id",
    name := findtext element "name",
    status := findtext element "state",
    description := findtext element "description" }

end DimensionDataLBDriver

/-- An environment whose every response has an empty info list, so no
create-operation ever finds its id. -/
def envEmpty : Env := fun _ => ⟨[]⟩

/-- An environment whose every response carries a `poolId` info entry. -/
def envPoolIdOnly : Env := fun _ => ⟨[⟨"poolId", "POOL-1"⟩]⟩

/-- An environment whose every response carries a `virtualListenerId`
info entry and nothing else. -/
def envListenerIdOnly : Env := fun _ => ⟨[⟨"virtualListenerId", "LST-1"⟩]⟩

/-- A concrete `node` subelement of a `poolMember` response element. -/
def memberNodeElem : XmlNode :=
  .mk "node" [("name", "node-1"), ("ipAddress", "10.0.0.2")] Option.none []

/-- A concrete `poolMember` response element whose `port` text is
`"8080"`. -/
def poolMemberElem8080 : XmlNode :=
  .mk "poolMember" [("id", "PM-1")] Option.none
    [memberNodeElem,
     .mk "state" [] (Option.some "NORMAL") [],
     .mk "port" [] (Option.some "8080") []]

/-- A concrete `virtualListener` response element in state `NORMAL`. -/
def listenerElemNormal : XmlNode :=
  .mk "virtualListener" [("id", "LID-1")] Option.none
    [.mk "state" [] (Option.some "NORMAL") [],
     .mk "pool" [("id", "POOL-1")] Option.none []]

/-- A concrete balancer for exercising `balancer_attach_member`. -/
def attachBalancer : LoadBalancer :=
  ⟨.str "LB-1", .str "web", State.RUNNING, .str "10.0.0.9", .str "80",
   .str "POOL-1", .str "ND-1"⟩

/-- A concrete member for exercising `balancer_attach_member`. -/
def attachMember : Member :=
  ⟨.str "M-1", .str "m1", .str "10.0.0.2", .str "8080", PyVal.none⟩

namespace DimensionDataLBDriver

/-- The member loop of `create_balancer` issues, per member in list
order, the `createNode` request then the `addPoolMember` request built
from the fresh node id and the balancer port. -/
theorem create_balancer_loop_eq (env : Env) (ndi pool_id port : PyVal)
    (members : List Member) :
    create_balancer_loop env ndi pool_id port members =
      members.flatMap (fun m =>
        [createNodeRequest ndi m.name m.ip PyVal.none
           (PyVal.int 25000) (PyVal.int 2000),
         addPoolMemberRequest pool_id
           (ex_create_node env ndi m.name m.ip PyVal.none).1 port]) := by
  induction members with
  | nil => rfl
  | cons m rest ih =>
      simp [create_balancer_loop, ex_create_node, ex_create_pool_member, ih,
        List.flatMap_cons]

/-- C1: `create_balancer(name, port, protocol, algorithm, members)`
issues exactly one `createPool` request carrying the vendor code obtained
by translating `algorithm`, then, for each member in list order, exactly
one `createNode` request followed by one `addPoolMember` request at
`port`, then exactly one `createVirtualListener` request, in that order,
and returns `True`. -/
theorem create_balancer_workflow (env : Env) (name port protocol : PyVal)
    (algorithm : Algorithm) (members : List Member) :
    create_balancer env name port protocol algorithm members =
      (PyVal.bool true,
       createPoolRequest PyVal.none name
           (pyOfOpt (dGet ALGORITHM_TO_VALUE_MAP algorithm)) PyVal.none
           (PyVal.str "NONE") (PyVal.int 30)
         :: (members.flatMap (fun m =>
              [createNodeRequest PyVal.none m.name m.ip PyVal.none
                 (PyVal.int 25000) (PyVal.int 2000),
               addPoolMemberRequest
                 (ex_create_pool env PyVal.none name
                    (pyOfOpt (dGet ALGORITHM_TO_VALUE_MAP algorithm))
                    PyVal.none).1
                 (ex_create_node env PyVal.none m.name m.ip PyVal.none).1
                 port])
            ++ [createVirtualListenerRequest PyVal.none name PyVal.none port
                  (PyVal.str "STANDARD") (PyVal.int 25000) (PyVal.int 2000)
                  (PyVal.str "PRESERVE")])) := by
  simp [create_balancer, ex_create_pool, ex_create_virtual_listener,
    create_balancer_loop_eq, ex_create_node]

/-- C9: every `createPool`, `createNode` and `createVirtualListener`
request issued by `create_balancer` carries the hardcoded `None` as its
`networkDomainId` text, whatever the arguments. -/
theorem create_balancer_network_domain_hardcoded_none
    (env : Env) (name port protocol : PyVal) (algorithm : Algorithm)
    (members : List Member) :
    ∀ req ∈ (create_balancer env name port protocol algorithm members).2,
      (req.path = "networkDomainVip/createPool" ∨
       req.path = "networkDomainVip/createNode" ∨
       req.path = "networkDomainVip/createVirtualListener") →
      req.body.childText "networkDomainId" = Option.some PyVal.none := by
  intro req hreq hpath
  simp [create_balancer, ex_create_pool, ex_create_virtual_listener,
    create_balancer_loop_eq, ex_create_node, List.mem_append,
    List.mem_flatMap] at hreq
  rcases hreq with h | h | h
  · subst h
    simp [createPoolRequest, createPoolElm, XElem.childText]
  · obtain ⟨m, _, h⟩ := h
    rcases h with h | h
    · subst h
      simp [createNodeRequest, createNodeElm, XElem.childText]
    · subst h
      simp [addPoolMemberRequest] at hpath
  · subst h
    simp [createVirtualListenerRequest, createVirtualListenerElm,
      XElem.childText]

/-- Witness for C9: the `createPool` request of a concrete
`create_balancer` call carries an empty (`None`) `networkDomainId`. -/
theorem create_balancer_network_domain_hardcoded_none_witness :
    (createPoolRequest PyVal.none (PyVal.str "web")
      (pyOfOpt (dGet ALGORITHM_TO_VALUE_MAP Algorithm.ROUND_ROBIN))
      PyVal.none (PyVal.str "NONE")
      (PyVal.int 30)).body.childText "networkDomainId" =
      Option.some PyVal.none :=
  create_balancer_network_domain_hardcoded_none envEmpty (PyVal.str "web")
    (PyVal.int 80) (PyVal.str "http") Algorithm.ROUND_ROBIN [] _
    (by decide) (Or.inl (by decide))

/-- C2: for every algorithm in the forward map `_ALGORITHM_TO_VALUE_MAP`,
translating to the vendor code and back through
`_VALUE_TO_ALGORITHM_MAP` yields the algorithm again, and the two maps
are exact inverses entry by entry. -/
theorem algorithm_maps_exact_inverse :
    (∀ (a : Algorithm) (c : String),
       dGet ALGORITHM_TO_VALUE_MAP a = Option.some c →
       dGet VALUE_TO_ALGORITHM_MAP c = Option.some a) ∧
    (∀ p ∈ VALUE_TO_ALGORITHM_MAP,
       dGet ALGORITHM_TO_VALUE_MAP p.2 = Option.some p.1 ∧
       dGet VALUE_TO_ALGORITHM_MAP p.1 = Option.some p.2) := by
  constructor
  · intro a c h
    cases a <;>
      simp [ALGORITHM_TO_VALUE_MAP, VALUE_TO_ALGORITHM_MAP, reverse_dict,
        dGet] at h <;>
      subst h <;> decide
  · intro p hp
    fin_cases hp <;> exact ⟨by decide, by decide⟩

/-- Witness for C2: the `ROUND_ROBIN` vendor code translates back to
`Algorithm.ROUND_ROBIN`. -/
theorem algorithm_maps_exact_inverse_witness :
    dGet VALUE_TO_ALGORITHM_MAP "ROUND_ROBIN" =
      Option.some Algorithm.ROUND_ROBIN :=
  algorithm_maps_exact_inverse.1 Algorithm.ROUND_ROBIN "ROUND_ROBIN"
    (by decide)

/-- C3: the state translation used when decoding a virtual listener maps
`NORMAL` to `RUNNING`, the `PENDING_*` codes to `PENDING`, the
`FAILED_*` codes and `REQUIRES_SUPPORT` to `ERROR`, and every other code
to `UNKNOWN`; `_to_balancer` fills exactly this translation into the
decoded balancer. -/
theorem state_translation_spec :
    stateLookup "NORMAL" = State.RUNNING ∧
    stateLookup "PENDING_ADD" = State.PENDING ∧
    stateLookup "PENDING_CHANGE" = State.PENDING ∧
    stateLookup "PENDING_DELETE" = State.PENDING ∧
    stateLookup "FAILED_ADD" = State.ERROR ∧
    stateLookup "FAILED_CHANGE" = State.ERROR ∧
    stateLookup "FAILED_DELETE" = State.ERROR ∧
    stateLookup "REQUIRES_SUPPORT" = State.ERROR ∧
    (∀ c : String, c ∉ VALUE_TO_STATE_MAP.map Prod.fst →
       stateLookup c = State.UNKNOWN) ∧
    (∀ e lb, _to_balancer e = Option.some lb →
       lb.state = stateOfCode (findtext e "state")) := by
  refine ⟨by decide, by decide, by decide, by decide, by decide, by decide,
    by decide, by decide, ?_, ?_⟩
  · intro c hc
    simp only [VALUE_TO_STATE_MAP, List.map, List.mem_cons,
      List.not_mem_nil, or_false, not_or] at hc
    obtain ⟨h1, h2, h3, h4, h5, h6, h7, h8⟩ := hc
    have hfind : VALUE_TO_STATE_MAP.find? (fun p => p.1 == c) =
        Option.none := by
      rw [List.find?_eq_none]
      intro x hx
      fin_cases hx <;> simp [beq_iff_eq] <;>
        first
          | exact Ne.symm h1 | exact Ne.symm h2 | exact Ne.symm h3
          | exact Ne.symm h4 | exact Ne.symm h5 | exact Ne.symm h6
          | exact Ne.symm h7 | exact Ne.symm h8
    simp [stateLookup, dGet, hfind]
  · intro e lb h
    unfold _to_balancer at h
    cases hp : e.findChild "pool" <;> rw [hp] at h
    · exact absurd h (by simp)
    · simp only [Option.bind_some, Option.some.injEq, Option.pure_def] at h
      cases h
      rfl

/-- Witness for C3: an unmapped future code translates to `UNKNOWN`, and
decoding a concrete `NORMAL` listener yields a `RUNNING` balancer. -/
theorem state_translation_spec_witness :
    stateLookup "SOME_FUTURE_CODE" = State.UNKNOWN ∧
    ({ id := .str "LID-1", name := .none, state := State.RUNNING,
       ip := .none, port := .none, pool_id := .str "POOL-1",
       network_domain_id := .none } : LoadBalancer).state =
      stateOfCode (findtext listenerElemNormal "state") :=
  ⟨state_translation_spec.2.2.2.2.2.2.2.2.1 "SOME_FUTURE_CODE" (by decide),
   state_translation_spec.2.2.2.2.2.2.2.2.2 listenerElemNormal _ (by rfl)⟩

/-- C4: scanning a response info list returns the value of the entry
whose name equals the expected key, and when no entry has the expected
name the create-operations return a falsy failure value (`None` for
`ex_create_node`, `False` for `ex_create_pool_member`) instead of
raising. -/
theorem info_id_extraction :
    extractId [⟨"nodeId", "123"⟩, ⟨"other", "x"⟩] "nodeId" =
      Option.some "123" ∧
    (∀ (infos : List InfoEntry) (key v : String),
       extractId infos key = Option.some v →
       ∃ i ∈ infos, i.name = key ∧ i.value = v) ∧
    (∀ (env : Env) (ndi n ip d cl crl : PyVal),
       extractId (env (createNodeRequest ndi n ip d cl crl)).info
         "nodeId" = Option.none →
       (ex_create_node env ndi n ip d cl crl).1 = PyVal.none ∧
       ((ex_create_node env ndi n ip d cl crl).1).falsy = true) ∧
    (∀ (env : Env) (pid nid p : PyVal),
       extractId (env (addPoolMemberRequest pid nid p)).info
         "poolMemberId" = Option.none →
       (ex_create_pool_member env pid nid p).1 = PyVal.bool false ∧
       ((ex_create_pool_member env pid nid p).1).falsy = true) := by
  refine ⟨by decide, ?_, ?_, ?_⟩
  · intro infos key v h
    induction infos with
    | nil => simp [extractId] at h
    | cons i rest ih =>
        by_cases hk : i.name == key
        · refine ⟨i, List.mem_cons_self i rest, by simpa using hk, ?_⟩
          simp [extractId, hk] at h
          exact h
        · simp [extractId, hk] at h
          obtain ⟨j, hj, hjp⟩ := ih h
          exact ⟨j, List.mem_cons_of_mem i hj, hjp⟩
  · intro env ndi n ip d cl crl h
    constructor <;> simp [ex_create_node, h, PyVal.falsy]
  · intro env pid nid p h
    constructor <;> simp [ex_create_pool_member, h, PyVal.falsy]

/-- Witness for C4: against an environment whose responses carry no info
entries, both cited create-operations return their falsy sentinel. -/
theorem info_id_extraction_witness :
    ((ex_create_node envEmpty PyVal.none (PyVal.str "n")
      (PyVal.str "10.0.0.1") PyVal.none (PyVal.int 25000)
      (PyVal.int 2000)).1).falsy = true ∧
    ((ex_create_pool_member envEmpty (PyVal.str "P") (PyVal.str "N")
      (PyVal.str "80")).1).falsy = true :=
  ⟨(info_id_extraction.2.2.1 envEmpty PyVal.none (PyVal.str "n")
      (PyVal.str "10.0.0.1") PyVal.none (PyVal.int 25000) (PyVal.int 2000)
      (by decide)).2,
   (info_id_extraction.2.2.2 envEmpty (PyVal.str "P") (PyVal.str "N")
      (PyVal.str "80") (by decide)).2⟩

/-- C10: when the expected info entry is absent, `ex_create_node` returns
`None` while `ex_create_pool`, `ex_create_pool_member` and
`ex_create_virtual_listener` return `False`; and
`ex_create_virtual_listener` scans for the key `poolId`, returning the
value found under that key. -/
theorem create_failure_sentinels :
    (∀ (env : Env) (ndi n ip d cl crl : PyVal),
       extractId (env (createNodeRequest ndi n ip d cl crl)).info
         "nodeId" = Option.none →
       (ex_create_node env ndi n ip d cl crl).1 = PyVal.none) ∧
    (∀ (env : Env) (ndi n bm d sda srt : PyVal),
       extractId (env (createPoolRequest ndi n bm d sda srt)).info
         "poolId" = Option.none →
       (ex_create_pool env ndi n bm d sda srt).1 = PyVal.bool false) ∧
    (∀ (env : Env) (pid nid p : PyVal),
       extractId (env (addPoolMemberRequest pid nid p)).info
         "poolMemberId" = Option.none →
       (ex_create_pool_member env pid nid p).1 = PyVal.bool false) ∧
    (∀ (env : Env) (ndi n d p lt pr cl crl spp : PyVal),
       extractId
         (env (createVirtualListenerRequest ndi n d p lt cl crl spp)).info
         "poolId" = Option.none →
       (ex_create_virtual_listener env ndi n d p lt pr cl crl spp).1 =
         PyVal.bool false) ∧
    (∀ (env : Env) (ndi n d p lt pr cl crl spp : PyVal) (v : String),
       extractId
         (env (createVirtualListenerRequest ndi n d p lt cl crl spp)).info
         "poolId" = Option.some v →
       (ex_create_virtual_listener env ndi n d p lt pr cl crl spp).1 =
         PyVal.str v) := by
  refine ⟨?_, ?_, ?_, ?_, ?_⟩
  · intro env ndi n ip d cl crl h
    simp [ex_create_node, h]
  · intro env ndi n bm d sda srt h
    simp [ex_create_pool, h]
  · intro env pid nid p h
    simp [ex_create_pool_member, h]
  · intro env ndi n d p lt pr cl crl spp h
    simp [ex_create_virtual_listener, h]
  · intro env ndi n d p lt pr cl crl spp v h
    simp [ex_create_virtual_listener, h]

/-- Witness for C10: the four sentinels on an empty info list, plus
`ex_create_virtual_listener` ignoring a `virtualListenerId` entry but
picking up a `poolId` entry. -/
theorem create_failure_sentinels_witness :
    (ex_create_node envEmpty PyVal.none (PyVal.str "n")
      (PyVal.str "10.0.0.1") PyVal.none (PyVal.int 25000)
      (PyVal.int 2000)).1 = PyVal.none ∧
    (ex_create_pool envEmpty PyVal.none (PyVal.str "p")
      (PyVal.str "ROUND_ROBIN") PyVal.none (PyVal.str "NONE")
      (PyVal.int 30)).1 = PyVal.bool false ∧
    (ex_create_pool_member envEmpty (PyVal.str "P") (PyVal.str "N")
      (PyVal.str "80")).1 = PyVal.bool false ∧
    (ex_create_virtual_listener envListenerIdOnly PyVal.none
      (PyVal.str "web") PyVal.none (PyVal.str "80") (PyVal.str "STANDARD")
      (PyVal.str "ANY") (PyVal.int 25000) (PyVal.int 2000)
      (PyVal.str "PRESERVE")).1 = PyVal.bool false ∧
    (ex_create_virtual_listener envPoolIdOnly PyVal.none (PyVal.str "web")
      PyVal.none (PyVal.str "80") (PyVal.str "STANDARD") (PyVal.str "ANY")
      (PyVal.int 25000) (PyVal.int 2000) (PyVal.str "PRESERVE")).1 =
      PyVal.str "POOL-1" :=
  ⟨create_failure_sentinels.1 envEmpty _ _ _ _ _ _ (by decide),
   create_failure_sentinels.2.1 envEmpty _ _ _ _ _ _ (by decide),
   create_failure_sentinels.2.2.1 envEmpty _ _ _ (by decide),
   create_failure_sentinels.2.2.2.1 envListenerIdOnly _ _ _ _ _ _ _ _ _
     (by decide),
   create_failure_sentinels.2.2.2.2 envPoolIdOnly _ _ _ _ _ _ _ _ _ "POOL-1"
     (by decide)⟩

/-- C7: `destroy_balancer(balancer)` issues exactly one
`deleteVirtualListener` request, whose `id` attribute is `balancer.id`,
issues nothing else, and returns `True`. -/
theorem destroy_balancer_single_delete (env : Env) (balancer : LoadBalancer) :
    destroy_balancer env balancer =
      (PyVal.bool true, [deleteVirtualListenerRequest balancer.id]) ∧
    (deleteVirtualListenerRequest balancer.id).path =
      "networkDomainVip/deleteVirtualListener" ∧
    (deleteVirtualListenerRequest balancer.id).method = "POST" ∧
    (deleteVirtualListenerRequest balancer.id).body.attr "id" =
      Option.some balancer.id := by
  refine ⟨rfl, rfl, rfl, ?_⟩
  simp [deleteVirtualListenerRequest, deleteVirtualListenerElm, XElem.attr]

/-- C5 (code-bug evidence): when `ex_create_node` fails — its failure
sentinel is `None` — `balancer_attach_member` does not abort: the
`nodeId == false` guard compares against `False`, which `None` never
equals, so the `addPoolMember` request is still issued, carrying the
empty node id, and the call returns `True`. -/
theorem attach_member_not_fail_closed :
    (ex_create_node envEmpty (PyVal.str "ND-1") (PyVal.str "m1")
      (PyVal.str "10.0.0.2") PyVal.none).1 = PyVal.none ∧
    balancer_attach_member envEmpty attachBalancer attachMember =
      (PyVal.bool true,
       [createNodeRequest (PyVal.str "ND-1") (PyVal.str "m1")
          (PyVal.str "10.0.0.2") PyVal.none (PyVal.int 25000)
          (PyVal.int 2000),
        addPoolMemberRequest (PyVal.str "POOL-1") PyVal.none
          (PyVal.str "8080")]) :=
  ⟨by decide, by decide⟩

/-- C6 (code-bug evidence): the integer-valued fields are assigned to the
XML element text unconverted, so with the integer defaults the
`connectionLimit` / `connectionRateLimit` / `slowRampTime` texts are
`int`s, not strings, and `ET.tostring` fails on every such payload —
whereas a caller passing the same values as strings gets a serialized
document. -/
theorem numeric_fields_not_serialized_as_strings :
    (createNodeElm PyVal.none (PyVal.str "n") (PyVal.str "10.0.0.1")
      PyVal.none (PyVal.int 25000) (PyVal.int 2000)).childText
      "connectionLimit" = Option.some (PyVal.int 25000) ∧
    (createNodeElm PyVal.none (PyVal.str "n") (PyVal.str "10.0.0.1")
      PyVal.none (PyVal.int 25000) (PyVal.int 2000)).childText
      "connectionRateLimit" = Option.some (PyVal.int 2000) ∧
    tostring? (createNodeElm PyVal.none (PyVal.str "n")
      (PyVal.str "10.0.0.1") PyVal.none (PyVal.int 25000)
      (PyVal.int 2000)) = Option.none ∧
    (createPoolElm PyVal.none (PyVal.str "p") (PyVal.str "ROUND_ROBIN")
      PyVal.none (PyVal.str "NONE") (PyVal.int 30)).childText
      "slowRampTime" = Option.some (PyVal.int 30) ∧
    tostring? (createPoolElm PyVal.none (PyVal.str "p")
      (PyVal.str "ROUND_ROBIN") PyVal.none (PyVal.str "NONE")
      (PyVal.int 30)) = Option.none ∧
    (createVirtualListenerElm PyVal.none (PyVal.str "web") PyVal.none
      (PyVal.str "80") (PyVal.str "STANDARD") (PyVal.int 25000)
      (PyVal.int 2000) (PyVal.str "PRESERVE")).childText
      "connectionLimit" = Option.some (PyVal.int 25000) ∧
    tostring? (createVirtualListenerElm PyVal.none (PyVal.str "web")
      PyVal.none (PyVal.str "80") (PyVal.str "STANDARD") (PyVal.int 25000)
      (PyVal.int 2000) (PyVal.str "PRESERVE")) = Option.none ∧
    (tostring? (createNodeElm PyVal.none (PyVal.str "n")
      (PyVal.str "10.0.0.1") PyVal.none (PyVal.str "25000")
      (PyVal.str "2000"))).isSome = true := by
  decide

/-- C8: `_to_member` converts the `port` child text with `int()`: numeric
text yields that integer in the decoded pool member's `port` field, and
text outside `int()`'s grammar makes the decode fail rather than coerce
or default. -/
theorem to_member_port_decode (element nd : XmlNode) (s : String)
    (hnode : element.findChild "node" = Option.some nd)
    (hport : findtext element "port" = Option.some s) :
    (∀ n : Int, pyInt (Option.some s) = Option.some n →
       _to_member element = Option.some
         { id := element.get "id", name := nd.get "name",
           status := findtext element "state",
           ip_address := nd.get "ipAddress", port := n }) ∧
    (pyInt (Option.some s) = Option.none →
       _to_member element = Option.none) := by
  constructor
  · intro n hn
    unfold _to_member
    rw [hnode, hport, hn]
    rfl
  · intro hn
    unfold _to_member
    rw [hnode, hport, hn]
    rfl

/-- Witness for C8: decoding a concrete pool member whose `port` text is
`"8080"` yields the integer port `8080`. -/
theorem to_member_port_decode_witness :
    _to_member poolMemberElem8080 = Option.some
      { id := Option.some "PM-1", name := Option.some "node-1",
        status := Option.some "NORMAL",
        ip_address := Option.some "10.0.0.2", port := (8080 : Int) } := by
  exact (to_member_port_decode poolMemberElem8080 memberNodeElem "8080"
    (by rfl) (by rfl)).1 8080 (by rfl)

end DimensionDataLBDriver

end DimensionData
